import Mathlib

/-!
Verification of `cloudshell_dsql_elasticache.py` (and its `__main__` driver)
from the aws-samples repository "enhance query performance for Amazon Aurora
DSQL with Amazon ElastiCache".

The Python script is embedded shallowly:

* `datetime.timedelta` values are integer microsecond counts (`Timedelta`);
  `total_seconds` is the exact rational value of the count divided by 10^6,
  and `datetime.timedelta(seconds=s)` rounds `s` to the nearest microsecond
  (Python rounds half to even; the two conventions agree on every value the
  script ever feeds back, namely exact multiples of a microsecond).
* The Valkey/Redis cache is a key-value store with per-entry absolute expiry
  (`SETEX key ttl value` stores the value with expiry `now + ttl`; `GET`
  returns nothing once the expiry time has been reached), mirroring the
  documented semantics of the external service.
* JSON values are modelled by the `PyJson` AST.  `json.dumps`/`json.loads`
  are a round-trip through the wire encoding supplied by the Python standard
  library, so a stored value is modelled by its parsed form: `setex` stores
  the `PyJson` value that `json.dumps` would serialize and a later
  `json.loads` recovers, and dictionary indexing (`cache_data['result']`)
  is association-list lookup on the parsed object.  `json.dumps` never
  produces an empty byte string, so the truthiness test `if result:` on the
  raw bytes returned by `cache.get` is presence of a stored value.
* Exceptions are `Except Unit`; every Python division site is modelled by
  `pyDiv`, which raises (ZeroDivisionError) exactly when the divisor is zero.
-/

/-- Python `datetime.timedelta`, as a signed count of microseconds. -/
abbrev Timedelta := Int

/-- Python `timedelta.total_seconds()`: the exact duration in fractional seconds. -/
def total_seconds (d : Timedelta) : ℚ := (d : ℚ) / 1000000

/-- Python `datetime.timedelta(seconds=s)`: seconds converted to a whole number of
microseconds.  Python rounds half to even; `round` rounds half up.  The two
agree whenever `s * 10^6` is an integer, which holds for every value this
script constructs (they all originate from `total_seconds` of a timedelta). -/
def timedeltaOfSeconds (s : ℚ) : Timedelta := round (s * 1000000)

/-- A JSON value as produced by `json.loads` (only the constructors this
script can store appear). -/
inductive PyJson where
  | str (s : String)
  | num (q : ℚ)
  | obj (fields : List (String × PyJson))

/-- Python truthiness of a JSON value (empty string, zero, empty dict are
falsy). -/
def pyTruthy : PyJson → Bool
  | .str s => s != ""
  | .num q => q != 0
  | .obj l => !l.isEmpty

/-- The cache contents: one entry per key, with the absolute time at which
the entry expires (`SETEX` at time `t` with ttl `n` expires at `t + n`). -/
abbrev CacheState := List (String × PyJson × Nat)

/-- Redis `SETEX key ttl value` issued at wall-clock time `now`: replaces any
previous entry for `key` and sets expiry `now + ttl`. -/
def cacheSetex (c : CacheState) (now : Nat) (key : String) (ttl : Nat)
    (v : PyJson) : CacheState :=
  (key, v, now + ttl) :: c.filter (fun e => e.1 != key)

/-- Redis `GET key` at wall-clock time `now`: the stored value, unless the
entry is absent or its expiry time has been reached. -/
def cacheGet (c : CacheState) (now : Nat) (key : String) : Option PyJson :=
  match c.find? (fun e => e.1 == key) with
  | some (_, v, exp) => if now < exp then some v else none
  | none => none

/-- Redis `DEL key`. -/
def cacheDelete (c : CacheState) (key : String) : CacheState :=
  c.filter (fun e => e.1 != key)

/-- The JSON envelope built by `hydrate_cache` (source lines 414-419):
`{'result': value, 'dsql_time_seconds': dsql_time.total_seconds()}`. -/
def cacheEnvelope (value : String) (dsql_time : Timedelta) : PyJson :=
  .obj [("result", .str value), ("dsql_time_seconds", .num (total_seconds dsql_time))]

/-- Model of `hydrate_cache(cache, key, value, dsql_time, ttl)` (lines 402-426):
stores the JSON envelope under `key` with the given ttl via `setex`.
`now` is the wall-clock time of the `setex` call. -/
def hydrate_cache (cache : CacheState) (now : Nat) (key : String)
    (value : String) (dsql_time : Timedelta) (ttl : Nat) : CacheState :=
  cacheSetex cache now key ttl (cacheEnvelope value dsql_time)

/-- Dictionary indexing `d[k]` on a parsed JSON object: `KeyError` when the
key is absent. -/
def objIndex (fields : List (String × PyJson)) (k : String) :
    Except Unit PyJson :=
  match fields.find? (fun p => p.1 == k) with
  | some p => .ok p.2
  | none => .error ()

/-- Python `timedelta(seconds=x)` requires a number; anything else is a TypeError. -/
def asSeconds : PyJson → Except Unit ℚ
  | .num q => .ok q
  | _ => .error ()

/-- Model of `get_from_cache(cache, key)` (lines 351-380).  `now` is the wall-clock
time of the `cache.get` call and `delta` the measured access time (the
difference of the two `datetime.now()` snapshots around it).  On a hit the
stored JSON is indexed at `'result'` and `'dsql_time_seconds'` and the
original DSQL time reconstructed with `timedelta(seconds=...)`; on a miss
`(None, delta, None)` is returned. -/
def get_from_cache (cache : CacheState) (now : Nat) (delta : Timedelta)
    (key : String) :
    Except Unit (Option PyJson × Timedelta × Option Timedelta) :=
  match cacheGet cache now key with
  | some v =>
    match v with
    | .obj fields => do
      let query_result ← objIndex fields "result"
      let ds ← objIndex fields "dsql_time_seconds"
      let s ← asSeconds ds
      .ok (some query_result, delta, some (timedeltaOfSeconds s))
    | _ => .error ()
  | none => .ok (none, delta, none)

/-- Seconds-to-timedelta round trip: `timedelta(seconds=d.total_seconds())`
recovers `d` exactly. -/
theorem timedeltaOfSeconds_total_seconds (d : Timedelta) :
    timedeltaOfSeconds (total_seconds d) = d := by
  unfold timedeltaOfSeconds total_seconds
  rw [div_mul_cancel₀ (d : ℚ) (by norm_num : (1000000 : ℚ) ≠ 0)]
  exact round_intCast d

theorem cacheGet_setex_same (c : CacheState) (t now : Nat) (key : String)
    (ttl : Nat) (v : PyJson) :
    cacheGet (cacheSetex c t key ttl v) now key =
      if now < t + ttl then some v else none := by
  simp [cacheGet, cacheSetex, List.find?]

/-- C1: reading the cache right after hydrating it returns the seeded
value.  The result component is the seeded string, and the reconstructed
DSQL time is `timedelta(seconds=d.total_seconds())`, which equals `d`. -/
theorem getFromCache_after_hydrate (cache : CacheState) (r : String)
    (d : Timedelta) (k : String) (ttl tset tget : Nat) (delta : Timedelta)
    (hfresh : tget < tset + ttl) :
    get_from_cache (hydrate_cache cache tset k r d ttl) tget delta k =
      .ok (some (.str r), delta, some (timedeltaOfSeconds (total_seconds d)))
    ∧ timedeltaOfSeconds (total_seconds d) = d := by
  refine ⟨?_, timedeltaOfSeconds_total_seconds d⟩
  unfold get_from_cache hydrate_cache
  rw [cacheGet_setex_same]
  simp only [hfresh, if_true, cacheEnvelope, objIndex, asSeconds, List.find?]
  rfl

/-- Witness for C1 at a concrete instant: seed `("rowdata", 1234567 µs)`
under key `"q"` at time 5 with ttl 30 and read back at time 20. -/
theorem getFromCache_after_hydrate_witness :
    (20 < 5 + 30) ∧
    (get_from_cache (hydrate_cache [] 5 "q" "rowdata" 1234567 30) 20 77 "q" =
        .ok (some (.str "rowdata"), 77,
          some (timedeltaOfSeconds (total_seconds 1234567)))
      ∧ timedeltaOfSeconds (total_seconds 1234567) = 1234567) :=
  ⟨by decide, getFromCache_after_hydrate [] "rowdata" 1234567 "q" 30 5 20 77
      (by decide)⟩

/-! ## String formatting of the result set (`execute_dsql_query`, lines 296-348) -/

/-- Python `s.replace(pat, rep)`: scan left to right, replacing each
non-overlapping occurrence of `pat`.  Defined for the non-empty patterns
the script uses (for an empty pattern this returns the input unchanged,
whereas Python would intersperse; the script only ever replaces
single-character patterns). -/
def pyReplaceAux (pat rep : List Char) : Nat → List Char → List Char
  | _, [] => []
  | 0, l => l
  | fuel + 1, c :: rest =>
    if pat ≠ [] ∧ pat.isPrefixOf (c :: rest) then
      rep ++ pyReplaceAux pat rep fuel (rest.drop (pat.length - 1))
    else
      c :: pyReplaceAux pat rep fuel rest

def pyReplace (pat rep s : List Char) : List Char :=
  pyReplaceAux pat rep s.length s

theorem pyReplaceAux_single_char (a : Char) :
    ∀ (fuel : Nat) (l : List Char), l.length ≤ fuel →
      pyReplaceAux [a] [] fuel l = l.filter (fun c => c != a) := by
  intro fuel
  induction fuel with
  | zero =>
    intro l hl
    cases l with
    | nil => rfl
    | cons c rest => simp at hl
  | succ fuel ih =>
    intro l hl
    cases l with
    | nil => rfl
    | cons c rest =>
      rw [pyReplaceAux]
      by_cases h : a = c
      · subst h
        simp only [List.isPrefixOf, List.length_cons] at hl ⊢
        simp [ih rest (by omega)]
      · simp only [List.isPrefixOf, List.length_cons] at hl ⊢
        simp [h, Ne.symm h, ih rest (by omega)]

/-- Replacing a single character by nothing removes every occurrence. -/
theorem pyReplace_single_char (a : Char) (l : List Char) :
    pyReplace [a] [] l = l.filter (fun c => c != a) :=
  pyReplaceAux_single_char a l.length l le_rfl

/-- Line 332: `''.join(str(v) for v in data).replace('(', '').replace(')', '')`.
`rows` is the list of `str(row)` renderings of the fetched rows. -/
def format_result (rows : List String) : String :=
  String.mk (pyReplace [')'] []
    (pyReplace ['('] [] (String.join rows).data))

/-- Model of the `execute_dsql_query(cluster_endpoint, query)` success path (lines
316-337): `clock k` is the value of the `k`-th `datetime.now()` call (in
microseconds); the first snapshot is taken at line 319 before `cur.execute`
(two `logger.info` calls sit between the snapshot and the execute), the
second at line 326 right after `cur.fetchall`.  Returns
`(delta, result_str)`. -/
def execute_dsql_query (clock : Nat → Int) (rows : List String) :
    Timedelta × String :=
  let start : Int := clock 0
  let e : Int := clock 1
  (e - start, format_result rows)

theorem string_join_data (rows : List String) :
    (String.join rows).data = (rows.map String.data).flatten := by
  have key : ∀ (l : List String) (acc : String),
      (l.foldl (fun r s => r ++ s) acc).data =
        acc.data ++ (l.map String.data).flatten := by
    intro l
    induction l with
    | nil => intro acc; simp
    | cons s rest ih =>
      intro acc
      simp [List.foldl, ih, String.data_append]
  simp [String.join, key rows ""]

/-- C7: the formatted result is the concatenation of the row renderings with
every parenthesis character (wherever it occurs) removed, and the returned
duration is the difference of the two wall-clock snapshots bracketing
`cur.execute` and `cur.fetchall`. -/
theorem execute_dsql_query_spec (clock : Nat → Int) (rows : List String) :
    execute_dsql_query clock rows =
      (clock 1 - clock 0,
       String.mk (((rows.map String.data).flatten).filter
         (fun c => c != '(' && c != ')'))) := by
  unfold execute_dsql_query format_result
  refine Prod.ext rfl ?_
  simp only
  congr 1
  rw [pyReplace_single_char, pyReplace_single_char, List.filter_filter,
    string_join_data]
  congr 1
  funext c
  exact Bool.and_comm _ _

/-! ## The demo driver `main` (lines 429-551)

`main` is modelled as a function of an environment describing the behaviour
of the external services during one run:

* `valkeyOk`       - whether `create_valkey_client` succeeds (endpoint
                     reachable, `ping` ok);
* `deleteRaises`   - whether the initial `cache.delete(query)` raises (that
                     error is swallowed by the inner `try`, line 466-470);
* `dsqlRun k`      - the outcome of the `k`-th `execute_dsql_query` call:
                     either an exception or the pair
                     `(dsql_time, fetched rows)` (rows as their `str(row)`
                     renderings; the string placed in the cache is
                     `format_result` of them);
* `hydrateRaises k`- whether the `k`-th `hydrate_cache` call raises a
                     `redis.RedisError` (re-raised by `hydrate_cache`, so it
                     reaches `main`'s handler);
* `stepTime n`     - the wall-clock time (whole seconds, the unit of Redis
                     TTLs) at the `n`-th timed cache operation of the run
                     (operation 0 is the `cache.delete`, 1 the first
                     `setex`, then one step per `get`/`setex` in order);
* `getDelta n`     - the measured cache access time (`end - start` around
                     `cache.get`) at timed operation `n`.

`cfgTtl` stands for `CONFIG['valkey']['ttl']` (default 30, overridable via
the `VALKEY_TTL` environment variable), passed to both `hydrate_cache` call
sites.  The externally visible cache/database actions are collected in a
trace of `Event`s. -/

/-- The literal `CONFIG['queries']['simple']` (line 79). -/
def CONFIG_queries_simple : String := "SELECT * FROM users1;"

/-- The literal `CONFIG['queries']['complex']` (line 80). -/
def CONFIG_queries_complex : String := "SELECT u.user_id, u.name, u.email, u.department, u.role, u.last_login, COUNT(DISTINCT o.order_date) as active_days, COUNT(o.order_id) as recent_orders, COALESCE(SUM(o.order_amount), 0) as recent_spending, COALESCE(AVG(o.order_amount), 0) as avg_order_size, STRING_AGG(DISTINCT o.order_type, ', ') as order_types FROM users u LEFT JOIN orders o ON u.user_id = o.user_id AND o.order_date >= CURRENT_DATE - INTERVAL '30 days' WHERE u.user_id = 1 GROUP BY u.user_id, u.name, u.email, u.department, u.role, u.last_login;"

/-- The `CONFIG['queries']` dictionary. -/
def CONFIG_queries : List (String × String) :=
  [("simple", CONFIG_queries_simple), ("complex", CONFIG_queries_complex)]

/-- Python `dict.get(key, default)`. -/
def dictGetD (d : List (String × String)) (k dflt : String) : String :=
  match d.find? (fun p => p.1 == k) with
  | some p => p.2
  | none => dflt

/-- Line 446: `CONFIG['queries'].get(query_type, CONFIG['queries']['complex'])`. -/
def selectQuery (query_type : String) : String :=
  dictGetD CONFIG_queries query_type CONFIG_queries_complex

/-- Python division: raises `ZeroDivisionError` on a zero divisor. -/
def pyDiv (a b : ℚ) : Except Unit ℚ :=
  if b = 0 then .error () else .ok (a / b)

/-- Python `round(x, 1)`.  Python rounds ties half to even on the float
value; this model rounds half up — the two agree except at exact ties,
which no claim depends on. -/
def roundTo1 (q : ℚ) : ℚ := (round (q * 10) : ℤ) / 10

/-- Externally visible service actions of one `main` run. -/
inductive Event where
  | cacheDelete (key : String)
  | dsqlQuery (query : String)
  | cacheSetex (key : String) (ttl : Nat) (value : PyJson)
  | cacheGet (key : String)
  | printSummary

/-- Outcome of `main`: the returned metrics dictionary (lines 532-539), or
process termination via `sys.exit` from the broad `except` handler. -/
inductive MainResult where
  | metrics (dsql_time_ms cache_avg_ms cache_min_ms cache_max_ms
      speedup improvement : ℚ)
  | exit (code : Nat)

/-- Behaviour of the external services during one `main` run. -/
structure MainEnv where
  valkeyOk : Bool
  deleteRaises : Bool
  dsqlRun : Nat → Except Unit (Timedelta × List String)
  hydrateRaises : Nat → Bool
  stepTime : Nat → Nat
  getDelta : Nat → Timedelta

/-- Truthiness of `cache_result` (an `Optional[str]` in the source): `None`
and the empty string are falsy. -/
def pyTruthyOpt : Option PyJson → Bool
  | some v => pyTruthy v
  | none => false

/-- The cache-hit loop, lines 482-502 (`for i in range(2, num_cache_hits+2)`).
Arguments: `n` remaining iterations, `k` index of the next
`execute_dsql_query` call, `s` index of the next timed cache operation,
then the mutable state: the cache, `cache_hit_times`, and the loop-local
bindings of `speedup` and `improvement` (`none` while unbound — referencing
an unbound name raises `NameError`). -/
def mainLoop (env : MainEnv) (cfgTtl : Nat) (query : String) :
    Nat → Nat → Nat → CacheState → List Timedelta → Option ℚ → Option ℚ →
    List Event × Except Unit (CacheState × List Timedelta × Option ℚ × Option ℚ)
  | 0, _, _, cache, hits, sp, im => ([], .ok (cache, hits, sp, im))
  | n + 1, k, s, cache, hits, sp, im =>
    match get_from_cache cache (env.stepTime s) (env.getDelta s) query with
    | .error _ => ([Event.cacheGet query], .error ())
    | .ok (cache_result, cache_time, original_dsql_time) =>
      if pyTruthyOpt cache_result then
        -- line 490: cache_hit_times.append(cache_time)
        match original_dsql_time with
        | some od =>
          if od ≠ 0 then
            -- lines 492-494: speedup and improvement are (re)bound
            match pyDiv (total_seconds od) (total_seconds cache_time) with
            | .error _ => ([Event.cacheGet query], .error ())
            | .ok spv =>
              match pyDiv (total_seconds od - total_seconds cache_time)
                  (total_seconds od) with
              | .error _ => ([Event.cacheGet query], .error ())
              | .ok r =>
                let (evs, res) := mainLoop env cfgTtl query n k (s + 1) cache
                  (hits ++ [cache_time]) (some spv) (some (r * 100))
                (Event.cacheGet query :: evs, res)
          else
            -- line 496: "[WARNING] Original DSQL time not found in cache"
            let (evs, res) := mainLoop env cfgTtl query n k (s + 1) cache
              (hits ++ [cache_time]) sp im
            (Event.cacheGet query :: evs, res)
        | none =>
          let (evs, res) := mainLoop env cfgTtl query n k (s + 1) cache
            (hits ++ [cache_time]) sp im
          (Event.cacheGet query :: evs, res)
      else
        -- lines 498-502: unexpected miss, re-execute and rehydrate
        match env.dsqlRun k with
        | .error _ => ([Event.cacheGet query, Event.dsqlQuery query], .error ())
        | .ok (d, rows) =>
          let r := format_result rows
          if env.hydrateRaises k then
            ([Event.cacheGet query, Event.dsqlQuery query], .error ())
          else
            let cache' := hydrate_cache cache (env.stepTime (s + 1)) query r d cfgTtl
            let (evs, res) := mainLoop env cfgTtl query n (k + 1) (s + 2) cache'
              hits sp im
            (Event.cacheGet query :: Event.dsqlQuery query ::
              Event.cacheSetex query cfgTtl (cacheEnvelope r d) :: evs, res)

/-- Python `min`/`max` of a list of floats as Python computes them (only called on
non-empty lists; the `[]` case is unreachable in the modelled paths). -/
def pyMinQ : List ℚ → ℚ
  | [] => 0
  | x :: xs => xs.foldl min x

def pyMaxQ : List ℚ → ℚ
  | [] => 0
  | x :: xs => xs.foldl max x

/-- The summary block and return statement of `main` (lines 504-539).
`d0` is `cache_miss_time` (always bound once iteration 1 succeeded), `hits`
is `cache_hit_times`, and `sp`/`im` are the `speedup`/`improvement`
bindings left by the loop (`none` while unbound).  The names
`avg_cache_hit`, `min_cache_hit`, `max_cache_hit` are bound only when
`cache_hit_times` is non-empty, and `speedup`/`improvement` only by a loop
iteration or by the summary block when `cache_miss_time` is truthy, so the
`return` raises `NameError` (caught by the handler, exit 1) whenever one of
them is still unbound; the divisions at lines 511 and 520-521 raise
`ZeroDivisionError` on a zero divisor (also caught, exit 1). -/
def mainSummary (d0 : Timedelta) (hits : List Timedelta)
    (sp im : Option ℚ) : MainResult :=
  match hits with
  | [] =>
    -- `avg_cache_hit` was never bound: NameError at the return
    .exit 1
  | t :: ts =>
    let tsl := (t :: ts).map total_seconds
    let avg := tsl.sum / (tsl.length : ℚ)
    let minv := pyMinQ tsl
    let maxv := pyMaxQ tsl
    if d0 ≠ 0 then
      -- cache_miss_time is truthy: lines 519-527 rebind speedup
      match pyDiv (total_seconds d0) avg with
      | .error _ => .exit 1   -- ZeroDivisionError, caught
      | .ok speedup =>
        match pyDiv (total_seconds d0 - avg) (total_seconds d0) with
        | .error _ => .exit 1
        | .ok ratio =>
          .metrics (roundTo1 (total_seconds d0 * 1000))
            (roundTo1 (avg * 1000)) (roundTo1 (minv * 1000))
            (roundTo1 (maxv * 1000)) (roundTo1 speedup)
            (roundTo1 (ratio * 100))
    else
      -- cache_miss_time falsy: speedup/improvement only have their
      -- loop bindings, if any
      match sp, im with
      | some spv, some imv =>
        .metrics (roundTo1 (total_seconds d0 * 1000))
          (roundTo1 (avg * 1000)) (roundTo1 (minv * 1000))
          (roundTo1 (maxv * 1000)) (roundTo1 spv) (roundTo1 imv)
      | _, _ => .exit 1

/-- Model of `main(cluster_endpoint, valkey_endpoint, query_type)` (lines
429-551), named `mainFn` because Lean reserves the name `main`.
The whole body sits in one `try` whose `except Exception` handler logs the
error, prints troubleshooting tips and calls `sys.exit(1)`; every modelled
exception therefore maps to `MainResult.exit 1`.  After the loop, the
summary block is printed (`Event.printSummary`) and `mainSummary` builds
the metrics dictionary or fails. -/
def mainFn (env : MainEnv) (cfgTtl : Nat) (cacheInit : CacheState)
    (query_type : String) : List Event × MainResult :=
  let query := selectQuery query_type
  if env.valkeyOk = false then
    -- create_valkey_client raised; caught by the handler
    ([], .exit 1)
  else
    let cache0 := if env.deleteRaises then cacheInit else cacheDelete cacheInit query
    let ev0 := [Event.cacheDelete query]
    match env.dsqlRun 0 with
    | .error _ => (ev0 ++ [Event.dsqlQuery query], .exit 1)
    | .ok (d0, rows0) =>
      let r0 := format_result rows0
      -- cache_miss_time := dsql_time (line 476)
      if env.hydrateRaises 0 then
        (ev0 ++ [Event.dsqlQuery query], .exit 1)
      else
        let cache1 := hydrate_cache cache0 (env.stepTime 1) query r0 d0 cfgTtl
        let ev1 := ev0 ++ [Event.dsqlQuery query,
          Event.cacheSetex query cfgTtl (cacheEnvelope r0 d0)]
        match mainLoop env cfgTtl query 9 1 2 cache1 [] none none with
        | (evL, .error _) => (ev1 ++ evL, .exit 1)
        | (evL, .ok (_, hits, sp, im)) =>
          (ev1 ++ evL ++ [Event.printSummary], mainSummary d0 hits sp im)

/-! ## C8: unknown query types fall back to the complex query -/

theorem selectQuery_default (qt : String) (h1 : qt ≠ "simple")
    (h2 : qt ≠ "complex") : selectQuery qt = CONFIG_queries_complex := by
  have e1 : ("simple" == qt) = false := beq_eq_false_iff_ne.mpr (Ne.symm h1)
  have e2 : ("complex" == qt) = false := beq_eq_false_iff_ne.mpr (Ne.symm h2)
  unfold selectQuery dictGetD CONFIG_queries
  simp [List.find?, e1, e2]

/-- C8: for any `query_type` other than `'simple'` and `'complex'`, the
`dict.get` default selects the complex query and `main` behaves exactly as
it does for `'complex'` (the query type is otherwise only echoed to the
console). -/
theorem mainFn_unknown_query_type (env : MainEnv) (cfgTtl : Nat)
    (cacheInit : CacheState) (qt : String) (h1 : qt ≠ "simple")
    (h2 : qt ≠ "complex") :
    selectQuery qt = CONFIG_queries_complex ∧
    mainFn env cfgTtl cacheInit qt = mainFn env cfgTtl cacheInit "complex" := by
  have hq := selectQuery_default qt h1 h2
  have hc : selectQuery "complex" = CONFIG_queries_complex := rfl
  refine ⟨hq, ?_⟩
  unfold mainFn
  rw [hq, hc]

/-- Witness for C8 at the empty query type. -/
theorem mainFn_unknown_query_type_witness :
    (("" : String) ≠ "simple" ∧ ("" : String) ≠ "complex") ∧
    (selectQuery "" = CONFIG_queries_complex ∧
      mainFn ⟨false, false, fun _ => .error (), fun _ => false,
          fun _ => 0, fun _ => 0⟩ 30 [] "" =
        mainFn ⟨false, false, fun _ => .error (), fun _ => false,
          fun _ => 0, fun _ => 0⟩ 30 [] "complex") :=
  ⟨⟨by decide, by decide⟩,
    mainFn_unknown_query_type _ 30 [] "" (by decide) (by decide)⟩

/-! ## C6: every modelled error path exits with status 1 -/

theorem mainSummary_cases (d0 : Timedelta) (hits : List Timedelta)
    (sp im : Option ℚ) :
    (∃ a b c d e f, mainSummary d0 hits sp im = .metrics a b c d e f)
    ∨ mainSummary d0 hits sp im = .exit 1 := by
  unfold mainSummary
  split
  · right; rfl
  · dsimp only
    split
    · split
      · right; rfl
      · split
        · right; rfl
        · left; exact ⟨_, _, _, _, _, _, rfl⟩
    · split
      · left; exact ⟨_, _, _, _, _, _, rfl⟩
      · right; rfl

/-- Shared case analysis: a `main` run either returns the metrics
dictionary or terminates via `sys.exit(1)` from the broad handler. -/
theorem mainFn_result_cases (env : MainEnv) (cfgTtl : Nat)
    (cacheInit : CacheState) (qt : String) :
    (∃ a b c d e f, (mainFn env cfgTtl cacheInit qt).2 = .metrics a b c d e f)
    ∨ (mainFn env cfgTtl cacheInit qt).2 = .exit 1 := by
  unfold mainFn
  dsimp only
  repeat' split
  all_goals dsimp only
  all_goals first
    | (right; rfl)
    | (exact mainSummary_cases _ _ _ _)

/-- The spec's "log and abort" discipline: the only exit status is 1. -/
def logAndAbortOnly : MainResult → Prop
  | .metrics _ _ _ _ _ _ => True
  | .exit c => c = 1

/-- C6: whatever the external services do (connection failure, query
failure, hydration failure, summary-time `ZeroDivisionError`/`NameError`),
`main` never re-raises and the only error exit status is 1. -/
theorem mainFn_error_handling (env : MainEnv) (cfgTtl : Nat)
    (cacheInit : CacheState) (qt : String) :
    logAndAbortOnly (mainFn env cfgTtl cacheInit qt).2 := by
  rcases mainFn_result_cases env cfgTtl cacheInit qt with ⟨a, b, c, d, e, f, h⟩ | h <;>
    rw [h] <;> trivial

/-! ## C2: every persisted cache entry is the keyed, TTL'd JSON envelope -/

/-- What C2 requires of a persisted entry: the key is the SQL query text,
the TTL is `CONFIG['valkey']['ttl']`, and the value is the two-field JSON
envelope of some DSQL execution's formatted result and duration.  Events
other than `setex` persist nothing. -/
def persistOk (env : MainEnv) (cfgTtl : Nat) (query : String) : Event → Prop
  | .cacheSetex k t v => k = query ∧ t = cfgTtl ∧
      ∃ i d rows, env.dsqlRun i = .ok (d, rows) ∧
        v = cacheEnvelope (format_result rows) d
  | _ => True

theorem mainLoop_persist (env : MainEnv) (cfgTtl : Nat) (query : String) :
    ∀ (n k s : Nat) (cache : CacheState) (hits : List Timedelta)
      (sp im : Option ℚ) (e : Event),
      e ∈ (mainLoop env cfgTtl query n k s cache hits sp im).1 →
      persistOk env cfgTtl query e := by
  intro n
  induction n with
  | zero =>
    intro k s cache hits sp im e he
    simp [mainLoop] at he
  | succ n ih =>
    intro k s cache hits sp im e he
    rw [mainLoop] at he
    rcases hg : get_from_cache cache (env.stepTime s) (env.getDelta s) query
      with u | ⟨cr, ct, odt⟩ <;> rw [hg] at he
    · -- get_from_cache raised
      simp at he
      subst he; trivial
    · dsimp only at he
      by_cases ht : pyTruthyOpt cr
      · rw [if_pos ht] at he
        rcases odt with _ | od <;> dsimp only at he
        · rcases hrec : mainLoop env cfgTtl query n k (s + 1) cache
              (hits ++ [ct]) sp im with ⟨evs, res⟩
          rw [hrec] at he
          dsimp only at he
          rcases List.mem_cons.mp he with rfl | he'
          · trivial
          · exact ih k (s + 1) cache (hits ++ [ct]) sp im e (by rw [hrec]; exact he')
        · by_cases hod : od ≠ 0
          · rw [if_pos hod] at he
            rcases h1 : pyDiv (total_seconds od) (total_seconds ct) with u | spv <;>
              rw [h1] at he
            · simp at he; subst he; trivial
            · rcases h2 : pyDiv (total_seconds od - total_seconds ct)
                  (total_seconds od) with u | rr <;> rw [h2] at he
              · simp at he; subst he; trivial
              · dsimp only at he
                rcases hrec : mainLoop env cfgTtl query n k (s + 1) cache
                    (hits ++ [ct]) (some spv) (some (rr * 100)) with ⟨evs, res⟩
                rw [hrec] at he
                dsimp only at he
                rcases List.mem_cons.mp he with rfl | he'
                · trivial
                · exact ih k (s + 1) cache (hits ++ [ct]) (some spv)
                    (some (rr * 100)) e (by rw [hrec]; exact he')
          · rw [if_neg hod] at he
            rcases hrec : mainLoop env cfgTtl query n k (s + 1) cache
                (hits ++ [ct]) sp im with ⟨evs, res⟩
            rw [hrec] at he
            dsimp only at he
            rcases List.mem_cons.mp he with rfl | he'
            · trivial
            · exact ih k (s + 1) cache (hits ++ [ct]) sp im e (by rw [hrec]; exact he')
      · rw [if_neg ht] at he
        rcases hd : env.dsqlRun k with u | ⟨d, rows⟩ <;> rw [hd] at he
        · simp at he
          rcases he with rfl | rfl <;> trivial
        · dsimp only at he
          by_cases hh : env.hydrateRaises k
          · rw [if_pos hh] at he
            simp at he
            rcases he with rfl | rfl <;> trivial
          · rw [if_neg hh] at he
            rcases hrec : mainLoop env cfgTtl query n (k + 1) (s + 2)
                (hydrate_cache cache (env.stepTime (s + 1)) query
                  (format_result rows) d cfgTtl) hits sp im with ⟨evs, res⟩
            rw [hrec] at he
            dsimp only at he
            rcases List.mem_cons.mp he with rfl | he'
            · trivial
            · rcases List.mem_cons.mp he' with rfl | he''
              · trivial
              · rcases List.mem_cons.mp he'' with rfl | he'''
                · exact ⟨rfl, rfl, k, d, rows, hd, rfl⟩
                · exact ih (k + 1) (s + 2) _ hits sp im e (by rw [hrec]; exact he''')

/-- C2: every cache entry a `main` run persists is written by `setex` with
key the SQL query text, TTL `CONFIG['valkey']['ttl']`, and value the JSON
envelope with exactly the fields `'result'` (the formatted result set of a
DSQL execution) and `'dsql_time_seconds'` (that execution's duration in
fractional seconds); no other event persists anything. -/
theorem mainFn_persist (env : MainEnv) (cfgTtl : Nat) (cacheInit : CacheState)
    (qt : String) (e : Event) (he : e ∈ (mainFn env cfgTtl cacheInit qt).1) :
    persistOk env cfgTtl (selectQuery qt) e := by
  unfold mainFn at he
  dsimp only at he
  by_cases hv : env.valkeyOk = false
  · rw [if_pos hv] at he; simp at he
  · rw [if_neg hv] at he
    rcases hd : env.dsqlRun 0 with u | ⟨d0, rows0⟩ <;> rw [hd] at he <;>
      dsimp only at he
    · simp at he
      rcases he with rfl | rfl <;> trivial
    · by_cases hh : env.hydrateRaises 0
      · rw [if_pos hh] at he
        simp at he
        rcases he with rfl | rfl <;> trivial
      · rw [if_neg hh] at he
        set c1 := hydrate_cache
          (if env.deleteRaises = true then cacheInit
            else cacheDelete cacheInit (selectQuery qt))
          (env.stepTime 1) (selectQuery qt) (format_result rows0) d0 cfgTtl
          with hc1
        rcases hrec : mainLoop env cfgTtl (selectQuery qt) 9 1 2 c1 [] none none
          with ⟨evL, res⟩
        rw [hrec] at he
        rcases res with u | ⟨cF, hits, sp, im⟩ <;> dsimp only at he
        · -- the loop raised: trace is ev1 ++ evL
          simp only [List.mem_append, List.mem_cons, List.not_mem_nil,
            or_false, List.mem_singleton] at he
          rcases he with (rfl | rfl | rfl) | he
          · trivial
          · trivial
          · exact ⟨rfl, rfl, 0, d0, rows0, hd, rfl⟩
          · exact mainLoop_persist env cfgTtl (selectQuery qt) 9 1 2 c1 []
              none none e (by rw [hrec]; exact he)
        · -- the loop finished: the trace is ev1 ++ evL ++ [printSummary]
          simp only [List.mem_append, List.mem_cons, List.not_mem_nil,
            or_false, List.mem_singleton] at he
          rcases he with ((rfl | rfl | rfl) | he) | rfl
          · trivial
          · trivial
          · exact ⟨rfl, rfl, 0, d0, rows0, hd, rfl⟩
          · exact mainLoop_persist env cfgTtl (selectQuery qt) 9 1 2 c1 []
              none none e (by rw [hrec]; exact he)
          · trivial

/-- A concrete healthy run: cache reachable, every DSQL call returns one row
`(1, 'John')` in 250000 µs, clock advances one second per cache operation,
every cache read measures 3000 µs. -/
def demoEnv : MainEnv where
  valkeyOk := true
  deleteRaises := false
  dsqlRun := fun _ => .ok (250000, ["(1, 'John')"])
  hydrateRaises := fun _ => false
  stepTime := fun s => s
  getDelta := fun _ => 3000

unseal Rat.mul Rat.add Rat.sub Rat.inv in
theorem demoEnv_setex_mem :
    Event.cacheSetex (selectQuery "simple") 30
        (cacheEnvelope "1, 'John'" 250000) ∈ (mainFn demoEnv 30 [] "simple").1 := by
  have htr : (mainFn demoEnv 30 [] "simple").1 =
      [Event.cacheDelete (selectQuery "simple"),
       Event.dsqlQuery (selectQuery "simple"),
       Event.cacheSetex (selectQuery "simple") 30
         (cacheEnvelope "1, 'John'" 250000)] ++
      List.replicate 9 (Event.cacheGet (selectQuery "simple")) ++
      [Event.printSummary] := by rfl
  rw [htr]
  simp

/-- Witness for C2: the single `setex` of the concrete run satisfies the
persistence contract. -/
theorem mainFn_persist_witness :
    (Event.cacheSetex (selectQuery "simple") 30
        (cacheEnvelope "1, 'John'" 250000) ∈ (mainFn demoEnv 30 [] "simple").1) ∧
    persistOk demoEnv 30 (selectQuery "simple")
      (Event.cacheSetex (selectQuery "simple") 30
        (cacheEnvelope "1, 'John'" 250000)) :=
  ⟨demoEnv_setex_mem,
    mainFn_persist demoEnv 30 [] "simple" _ demoEnv_setex_mem⟩

/-! ## C4: the healthy demo flow (one cold query, nine cache hits) -/

theorem total_seconds_eq_zero (d : Timedelta) : total_seconds d = 0 ↔ d = 0 := by
  unfold total_seconds
  rw [div_eq_zero_iff]
  norm_num

theorem total_seconds_pos (d : Timedelta) (h : 0 < d) : 0 < total_seconds d := by
  unfold total_seconds
  positivity

/-- Reading any cache state whose entry for `key` is the JSON envelope
returns the stored string and reconstructs the stored duration exactly. -/
theorem get_from_cache_of_envelope (cache : CacheState) (now : Nat)
    (delta : Timedelta) (key r0 : String) (d0 : Timedelta)
    (h : cacheGet cache now key = some (cacheEnvelope r0 d0)) :
    get_from_cache cache now delta key =
      .ok (some (.str r0), delta, some d0) := by
  have base : get_from_cache cache now delta key =
      .ok (some (.str r0), delta, some (timedeltaOfSeconds (total_seconds d0))) := by
    unfold get_from_cache
    rw [h]
    simp only [cacheEnvelope, objIndex, asSeconds, List.find?]
    rfl
  rw [base, timedeltaOfSeconds_total_seconds]

/-- The cache access times measured at timed operations `s, s+1, ..., s+n-1`. -/
def deltasFrom (env : MainEnv) : Nat → Nat → List Timedelta
  | _, 0 => []
  | s, n + 1 => env.getDelta s :: deltasFrom env (s + 1) n

theorem mainLoop_all_hits (env : MainEnv) (cfgTtl : Nat) (query : String)
    (cache : CacheState) (r0 : String) (d0 : Timedelta)
    (hr : r0 ≠ "") (hd : d0 ≠ 0) :
    ∀ (n s k : Nat) (hits : List Timedelta) (sp im : Option ℚ),
      (∀ j, j < n →
        cacheGet cache (env.stepTime (s + j)) query = some (cacheEnvelope r0 d0)) →
      (∀ j, j < n → total_seconds (env.getDelta (s + j)) ≠ 0) →
      ∃ sp' im',
        mainLoop env cfgTtl query n k s cache hits sp im =
          (List.replicate n (Event.cacheGet query),
           .ok (cache, hits ++ deltasFrom env s n, sp', im')) := by
  intro n
  induction n with
  | zero =>
    intro s k hits sp im _ _
    exact ⟨sp, im, by simp [mainLoop, deltasFrom]⟩
  | succ n ih =>
    intro s k hits sp im hGet hδ
    have hget0 := hGet 0 (Nat.succ_pos n)
    have hδ0 := hδ 0 (Nat.succ_pos n)
    simp only [Nat.add_zero] at hget0 hδ0
    have hGet' : ∀ j, j < n →
        cacheGet cache (env.stepTime (s + 1 + j)) query =
          some (cacheEnvelope r0 d0) := by
      intro j hj
      have := hGet (j + 1) (by omega)
      rwa [show s + (j + 1) = s + 1 + j by omega] at this
    have hδ' : ∀ j, j < n → total_seconds (env.getDelta (s + 1 + j)) ≠ 0 := by
      intro j hj
      have := hδ (j + 1) (by omega)
      rwa [show s + (j + 1) = s + 1 + j by omega] at this
    obtain ⟨sp', im', hrec⟩ := ih (s + 1) k (hits ++ [env.getDelta s])
      (some (total_seconds d0 / total_seconds (env.getDelta s)))
      (some ((total_seconds d0 - total_seconds (env.getDelta s)) /
        total_seconds d0 * 100)) hGet' hδ'
    refine ⟨sp', im', ?_⟩
    rw [mainLoop, get_from_cache_of_envelope cache (env.stepTime s)
      (env.getDelta s) query r0 d0 hget0]
    try dsimp only
    have htr : pyTruthyOpt (some (.str r0)) = true := by
      simp [pyTruthyOpt, pyTruthy, hr]
    rw [htr, if_pos rfl]
    try dsimp only
    rw [if_pos hd]
    rw [show pyDiv (total_seconds d0) (total_seconds (env.getDelta s)) =
      .ok (total_seconds d0 / total_seconds (env.getDelta s)) from by
        unfold pyDiv; rw [if_neg hδ0]]
    try dsimp only
    rw [show pyDiv (total_seconds d0 - total_seconds (env.getDelta s))
        (total_seconds d0) =
      .ok ((total_seconds d0 - total_seconds (env.getDelta s)) /
        total_seconds d0) from by
        unfold pyDiv; rw [if_neg ((total_seconds_eq_zero d0).not.mpr hd)]]
    try dsimp only
    rw [hrec]
    refine Prod.ext ?_ ?_
    · simp [List.replicate_succ]
    · simp [deltasFrom]

theorem pyDiv_ok (a b : ℚ) (h : b ≠ 0) : pyDiv a b = .ok (a / b) := by
  unfold pyDiv
  rw [if_neg h]

/-- When iteration 1 produced a non-zero duration and every recorded cache
hit time is positive, the summary block completes and the metrics
dictionary is returned. -/
theorem mainSummary_metrics (d0 : Timedelta) (t : Timedelta)
    (ts : List Timedelta) (sp im : Option ℚ) (hd : d0 ≠ 0)
    (hpos : ∀ x ∈ t :: ts, 0 < total_seconds x) :
    ∃ a b c d e f, mainSummary d0 (t :: ts) sp im = .metrics a b c d e f := by
  unfold mainSummary
  dsimp only
  rw [if_pos hd]
  have hsum : 0 < ((t :: ts).map total_seconds).sum := by
    apply List.sum_pos
    · intro x hx
      rcases List.mem_map.mp hx with ⟨y, hy, rfl⟩
      exact hpos y hy
    · simp
  have havg : 0 < ((t :: ts).map total_seconds).sum /
      ((((t :: ts).map total_seconds).length : Nat) : ℚ) := by
    apply div_pos hsum
    simp only [List.length_map, List.length_cons]
    exact_mod_cast Nat.succ_pos ts.length
  rw [pyDiv_ok _ _ (ne_of_gt havg)]
  rw [pyDiv_ok _ _ ((total_seconds_eq_zero d0).not.mpr hd)]
  exact ⟨_, _, _, _, _, _, rfl⟩

/-- Recognizer for DSQL query events. -/
def isDsqlQuery : Event → Bool
  | .dsqlQuery _ => true
  | _ => false

/-- C4: in a run where the cache stays reachable, iteration 1 succeeds (with
a non-empty result and a non-zero duration), the entry does not expire
before any of the nine reads, and every measured access time is positive,
`main` performs exactly: one delete, one DSQL query, one hydration, nine
cache reads, then the printed summary; no DSQL query after iteration 1, and
the metrics dictionary is returned. -/
theorem mainFn_demo_flow (env : MainEnv) (cfgTtl : Nat)
    (cacheInit : CacheState) (qt : String) (d0 : Timedelta)
    (rows0 : List String)
    (hv : env.valkeyOk = true)
    (hq0 : env.dsqlRun 0 = .ok (d0, rows0))
    (hh0 : env.hydrateRaises 0 = false)
    (hdpos : 0 < d0)
    (hr : format_result rows0 ≠ "")
    (hfresh : ∀ s, 2 ≤ s → s ≤ 10 → env.stepTime s < env.stepTime 1 + cfgTtl)
    (hdelta : ∀ s, 2 ≤ s → s ≤ 10 → 0 < env.getDelta s) :
    (mainFn env cfgTtl cacheInit qt).1 =
      [Event.cacheDelete (selectQuery qt), Event.dsqlQuery (selectQuery qt),
        Event.cacheSetex (selectQuery qt) cfgTtl
          (cacheEnvelope (format_result rows0) d0)] ++
      List.replicate 9 (Event.cacheGet (selectQuery qt)) ++
      [Event.printSummary] ∧
    ((mainFn env cfgTtl cacheInit qt).1.filter isDsqlQuery).length = 1 ∧
    ∃ a b c d e f, (mainFn env cfgTtl cacheInit qt).2 = .metrics a b c d e f := by
  have hGetAll : ∀ j, j < 9 →
      cacheGet (hydrate_cache (if env.deleteRaises = true then cacheInit
          else cacheDelete cacheInit (selectQuery qt)) (env.stepTime 1)
          (selectQuery qt) (format_result rows0) d0 cfgTtl)
        (env.stepTime (2 + j)) (selectQuery qt) =
        some (cacheEnvelope (format_result rows0) d0) := by
    intro j hj
    unfold hydrate_cache
    rw [cacheGet_setex_same]
    rw [if_pos (hfresh (2 + j) (by omega) (by omega))]
  have hδAll : ∀ j, j < 9 →
      total_seconds (env.getDelta (2 + j)) ≠ 0 := fun j hj =>
    ne_of_gt (total_seconds_pos _ (hdelta (2 + j) (by omega) (by omega)))
  obtain ⟨sp', im', hloop⟩ := mainLoop_all_hits env cfgTtl (selectQuery qt)
    (hydrate_cache (if env.deleteRaises = true then cacheInit
        else cacheDelete cacheInit (selectQuery qt)) (env.stepTime 1)
      (selectQuery qt) (format_result rows0) d0 cfgTtl)
    (format_result rows0) d0 hr (ne_of_gt hdpos) 9 2 1 [] none none
    hGetAll hδAll
  have hmain : mainFn env cfgTtl cacheInit qt =
      ([Event.cacheDelete (selectQuery qt)] ++
        [Event.dsqlQuery (selectQuery qt),
          Event.cacheSetex (selectQuery qt) cfgTtl
            (cacheEnvelope (format_result rows0) d0)] ++
        List.replicate 9 (Event.cacheGet (selectQuery qt)) ++
        [Event.printSummary],
       mainSummary d0 ([] ++ deltasFrom env 2 9) sp' im') := by
    unfold mainFn
    dsimp only
    rw [if_neg (show ¬ (env.valkeyOk = false) by simp [hv])]
    rw [hq0]
    dsimp only
    rw [if_neg (show ¬ (env.hydrateRaises 0 = true) by simp [hh0])]
    rw [hloop]
  have hdel9 : ([] : List Timedelta) ++ deltasFrom env 2 9 =
      env.getDelta 2 :: [env.getDelta 3, env.getDelta 4, env.getDelta 5,
        env.getDelta 6, env.getDelta 7, env.getDelta 8, env.getDelta 9,
        env.getDelta 10] := rfl
  refine ⟨?_, ?_, ?_⟩
  · rw [hmain]
    simp
  · rw [hmain]
    have hrep : List.replicate 9 (Event.cacheGet (selectQuery qt)) =
        [Event.cacheGet (selectQuery qt), Event.cacheGet (selectQuery qt),
         Event.cacheGet (selectQuery qt), Event.cacheGet (selectQuery qt),
         Event.cacheGet (selectQuery qt), Event.cacheGet (selectQuery qt),
         Event.cacheGet (selectQuery qt), Event.cacheGet (selectQuery qt),
         Event.cacheGet (selectQuery qt)] := rfl
    rw [hrep]
    simp [isDsqlQuery, List.filter_append]
  · rw [hmain]
    dsimp only
    rw [hdel9]
    apply mainSummary_metrics d0 _ _ sp' im' (ne_of_gt hdpos)
    intro x hx
    simp only [List.mem_cons, List.not_mem_nil, or_false] at hx
    rcases hx with rfl | rfl | rfl | rfl | rfl | rfl | rfl | rfl | rfl <;>
      exact total_seconds_pos _ (hdelta _ (by omega) (by omega))

/-- Witness for C4: the concrete healthy run performs exactly the claimed
event sequence and returns metrics. -/
theorem mainFn_demo_flow_witness :
    (demoEnv.valkeyOk = true ∧
     demoEnv.dsqlRun 0 = .ok (250000, ["(1, 'John')"]) ∧
     demoEnv.hydrateRaises 0 = false ∧
     (0 : Timedelta) < 250000 ∧
     format_result ["(1, 'John')"] ≠ "" ∧
     (∀ s, 2 ≤ s → s ≤ 10 → demoEnv.stepTime s < demoEnv.stepTime 1 + 30) ∧
     (∀ s, 2 ≤ s → s ≤ 10 → (0 : Timedelta) < demoEnv.getDelta s)) ∧
    ((mainFn demoEnv 30 [] "simple").1 =
      [Event.cacheDelete (selectQuery "simple"),
        Event.dsqlQuery (selectQuery "simple"),
        Event.cacheSetex (selectQuery "simple") 30
          (cacheEnvelope (format_result ["(1, 'John')"]) 250000)] ++
      List.replicate 9 (Event.cacheGet (selectQuery "simple")) ++
      [Event.printSummary] ∧
    ((mainFn demoEnv 30 [] "simple").1.filter isDsqlQuery).length = 1 ∧
    ∃ a b c d e f,
      (mainFn demoEnv 30 [] "simple").2 = .metrics a b c d e f) :=
  ⟨⟨rfl, rfl, rfl, by decide, by decide,
      fun s _ h10 => show s < 1 + 30 by omega,
      fun s _ _ => show (0 : Int) < 3000 by decide⟩,
    mainFn_demo_flow demoEnv 30 [] "simple" 250000 ["(1, 'John')"] rfl rfl rfl
      (by decide) (by decide) (fun s _ h10 => show s < 1 + 30 by omega)
      (fun s _ _ => show (0 : Int) < 3000 by decide)⟩

/-! ## C9: a run whose nine reads all miss ends in NameError and exit 1 -/

theorem get_from_cache_none (cache : CacheState) (now : Nat)
    (delta : Timedelta) (key : String)
    (h : cacheGet cache now key = none) :
    get_from_cache cache now delta key = .ok (none, delta, none) := by
  unfold get_from_cache
  rw [h]

/-- The events of `n` consecutive unexpected-miss iterations starting at
DSQL call `k`: each reads the cache, re-executes the query and rehydrates. -/
def missTrace (query : String) (cfgTtl : Nat) (D : Nat → Timedelta)
    (R : Nat → List String) : Nat → Nat → List Event
  | _, 0 => []
  | k, n + 1 =>
    Event.cacheGet query :: Event.dsqlQuery query ::
      Event.cacheSetex query cfgTtl
        (cacheEnvelope (format_result (R k)) (D k)) ::
      missTrace query cfgTtl D R (k + 1) n

theorem mainLoop_all_miss (env : MainEnv) (cfgTtl : Nat) (query : String)
    (D : Nat → Timedelta) (R : Nat → List String)
    (hdsql : ∀ k, env.dsqlRun k = .ok (D k, R k))
    (hhyd : ∀ k, env.hydrateRaises k = false)
    (hclock : ∀ t, env.stepTime t + cfgTtl ≤ env.stepTime (t + 1)) :
    ∀ (n k s : Nat) (c : CacheState) (v : PyJson) (tprev : Nat)
      (hits : List Timedelta) (sp im : Option ℚ),
      tprev + cfgTtl ≤ env.stepTime s →
      ∃ cF,
        mainLoop env cfgTtl query n k s
            (cacheSetex c tprev query cfgTtl v) hits sp im =
          (missTrace query cfgTtl D R k n, .ok (cF, hits, sp, im)) := by
  intro n
  induction n with
  | zero =>
    intro k s c v tprev hits sp im _
    exact ⟨_, rfl⟩
  | succ n ih =>
    intro k s c v tprev hits sp im hle
    rw [mainLoop, get_from_cache_none _ _ _ _
      (by rw [cacheGet_setex_same]; exact if_neg (not_lt.mpr hle))]
    dsimp only [pyTruthyOpt]
    rw [if_neg (by decide : ¬ ((false : Bool) = true))]
    rw [hdsql k]
    dsimp only
    rw [hhyd k]
    rw [if_neg (by decide : ¬ ((false : Bool) = true))]
    unfold hydrate_cache
    obtain ⟨cF, hrec⟩ := ih (k + 1) (s + 2) (cacheSetex c tprev query cfgTtl v)
      (cacheEnvelope (format_result (R k)) (D k)) (env.stepTime (s + 1))
      hits sp im (hclock (s + 1))
    rw [hrec]
    exact ⟨cF, rfl⟩

/-- C9: if the cache is reachable, every DSQL call succeeds, every
hydration succeeds, but between consecutive timed cache operations at least
the TTL elapses (so every one of the nine reads misses), then
`cache_hit_times` stays empty, each of the nine iterations re-executes the
query and rehydrates, the summary prints, the return statement's reference
to the unbound `avg_cache_hit` raises `NameError`, and the process exits
with status 1. -/
theorem mainFn_all_miss (env : MainEnv) (cfgTtl : Nat)
    (cacheInit : CacheState) (qt : String) (D : Nat → Timedelta)
    (R : Nat → List String)
    (hv : env.valkeyOk = true)
    (hdsql : ∀ k, env.dsqlRun k = .ok (D k, R k))
    (hhyd : ∀ k, env.hydrateRaises k = false)
    (hclock : ∀ t, env.stepTime t + cfgTtl ≤ env.stepTime (t + 1)) :
    (mainFn env cfgTtl cacheInit qt).1 =
      [Event.cacheDelete (selectQuery qt), Event.dsqlQuery (selectQuery qt),
        Event.cacheSetex (selectQuery qt) cfgTtl
          (cacheEnvelope (format_result (R 0)) (D 0))] ++
      missTrace (selectQuery qt) cfgTtl D R 1 9 ++ [Event.printSummary] ∧
    (mainFn env cfgTtl cacheInit qt).2 = .exit 1 := by
  obtain ⟨cF, hrec⟩ := mainLoop_all_miss env cfgTtl (selectQuery qt) D R
    hdsql hhyd hclock 9 1 2
    (if env.deleteRaises = true then cacheInit
      else cacheDelete cacheInit (selectQuery qt))
    (cacheEnvelope (format_result (R 0)) (D 0)) (env.stepTime 1) [] none none
    (hclock 1)
  have hmain : mainFn env cfgTtl cacheInit qt =
      ([Event.cacheDelete (selectQuery qt)] ++
        [Event.dsqlQuery (selectQuery qt),
          Event.cacheSetex (selectQuery qt) cfgTtl
            (cacheEnvelope (format_result (R 0)) (D 0))] ++
        missTrace (selectQuery qt) cfgTtl D R 1 9 ++ [Event.printSummary],
       mainSummary (D 0) [] none none) := by
    unfold mainFn
    dsimp only
    rw [if_neg (show ¬ (env.valkeyOk = false) by simp [hv])]
    rw [hdsql 0]
    dsimp only
    rw [if_neg (show ¬ (env.hydrateRaises 0 = true) by simp [hhyd 0])]
    unfold hydrate_cache
    rw [hrec]
  rw [hmain]
  exact ⟨by simp, rfl⟩

/-- A run in which more than the TTL elapses between consecutive cache
operations, so every read of the 30-second entry misses. -/
def missEnv : MainEnv where
  valkeyOk := true
  deleteRaises := false
  dsqlRun := fun _ => .ok (250000, ["(1, 'John')"])
  hydrateRaises := fun _ => false
  stepTime := fun t => 31 * t
  getDelta := fun _ => 3000

/-- Witness for C9: the concrete all-miss run exits with status 1. -/
theorem mainFn_all_miss_witness :
    (missEnv.valkeyOk = true ∧
     (∀ k, missEnv.dsqlRun k = .ok (250000, ["(1, 'John')"])) ∧
     (∀ k, missEnv.hydrateRaises k = false) ∧
     (∀ t, missEnv.stepTime t + 30 ≤ missEnv.stepTime (t + 1))) ∧
    ((mainFn missEnv 30 [] "simple").1 =
      [Event.cacheDelete (selectQuery "simple"),
        Event.dsqlQuery (selectQuery "simple"),
        Event.cacheSetex (selectQuery "simple") 30
          (cacheEnvelope (format_result ["(1, 'John')"]) 250000)] ++
      missTrace (selectQuery "simple") 30 (fun _ => 250000)
        (fun _ => ["(1, 'John')"]) 1 9 ++ [Event.printSummary] ∧
    (mainFn missEnv 30 [] "simple").2 = .exit 1) :=
  ⟨⟨rfl, fun _ => rfl, fun _ => rfl,
      fun t => show 31 * t + 30 ≤ 31 * (t + 1) by omega⟩,
    mainFn_all_miss missEnv 30 [] "simple" (fun _ => 250000)
      (fun _ => ["(1, 'John')"]) rfl (fun _ => rfl) (fun _ => rfl)
      (fun t => show 31 * t + 30 ≤ 31 * (t + 1) by omega)⟩

/-! ## C3: `DSQLConnectionPool` opens every connection with a fresh token

`_create_pool` (lines 129-162) stores `conn_params` without any password
and hands `psycopg2.ThreadedConnectionPool` a `connection_factory` closure
that, for each physical connection the pool opens, first calls
`_generate_auth_token` and then passes the result as the `password` keyword
to `psycopg2.connect`.  The token service is an oracle `tokens : Nat → String`
giving the value returned by the `i`-th `_generate_auth_token` call. -/

/-- The keyword arguments handed to `psycopg2.connect`. -/
structure ConnParams where
  dbname : String
  user : String
  host : String
  sslmode : String
  password : Option String
  deriving DecidableEq

/-- The dictionary `self.conn_params` as built at lines 139-148 (with
`CONFIG['dsql']['ssl_root_cert'] = None` no `sslrootcert` entry is added,
and no password is stored). -/
def conn_params (cluster_endpoint : String) : ConnParams :=
  { dbname := "postgres", user := "admin", host := cluster_endpoint,
    sslmode := "require", password := none }

/-- Observable actions of the pool while opening connections. -/
inductive PoolEvent where
  | genToken (idx : Nat)
  | pgConnect (params : ConnParams)
  deriving DecidableEq

/-- A physical connection as `psycopg2.connect` received it. -/
structure PGConnection where
  params : ConnParams
  deriving DecidableEq

/-- The `connection_factory` closure (lines 133-136): generate a fresh
token (the `k`-th overall), store it in `kwargs['password']`, connect.
Returns the events, the connection, and the next token index. -/
def connection_factory (tokens : Nat → String) (params : ConnParams)
    (k : Nat) : List PoolEvent × PGConnection × Nat :=
  let password := tokens k
  ([PoolEvent.genToken k,
    PoolEvent.pgConnect { params with password := some password }],
   ⟨{ params with password := some password }⟩, k + 1)

/-- Model of `n` physical connections opened in sequence by the pool, each through
`connection_factory` (as `ThreadedConnectionPool` does for `minconn` at
startup and for later `getconn` growth). -/
def createConnections (tokens : Nat → String) (params : ConnParams) :
    Nat → Nat → List PoolEvent × List PGConnection
  | 0, _ => ([], [])
  | n + 1, k =>
    let (ev, c, k') := connection_factory tokens params k
    let (evs, cs) := createConnections tokens params n k'
    (ev ++ evs, c :: cs)

/-- Expected events of `n` connection opens starting at token index `k`:
per connection exactly one token generation, immediately followed by the
`psycopg2.connect` call using that very token as password. -/
def poolTrace (tokens : Nat → String) (params : ConnParams) :
    Nat → Nat → List PoolEvent
  | _, 0 => []
  | k, n + 1 =>
    PoolEvent.genToken k ::
      PoolEvent.pgConnect { params with password := some (tokens k) } ::
      poolTrace tokens params (k + 1) n

/-- Expected connections: the `i`-th one carries the `i`-th token. -/
def poolConns (tokens : Nat → String) (params : ConnParams) :
    Nat → Nat → List PGConnection
  | _, 0 => []
  | k, n + 1 =>
    ⟨{ params with password := some (tokens k) }⟩ ::
      poolConns tokens params (k + 1) n

theorem createConnections_spec (tokens : Nat → String) (params : ConnParams) :
    ∀ n k,
      createConnections tokens params n k =
        (poolTrace tokens params k n, poolConns tokens params k n) := by
  intro n
  induction n with
  | zero => intro k; rfl
  | succ n ih =>
    intro k
    rw [createConnections]
    dsimp only [connection_factory]
    rw [ih (k + 1)]
    rfl

theorem poolConns_get? (tokens : Nat → String) (params : ConnParams) :
    ∀ n k i, i < n →
      (poolConns tokens params k n).get? i =
        some ⟨{ params with password := some (tokens (k + i)) }⟩ := by
  intro n
  induction n with
  | zero => intro k i hi; omega
  | succ n ih =>
    intro k i hi
    cases i with
    | zero => rfl
    | succ i =>
      rw [poolConns]
      show (poolConns tokens params (k + 1) n).get? i = _
      rw [ih (k + 1) i (by omega), show k + 1 + i = k + (i + 1) by omega]

/-- C3: the stored connection parameters hold no password; every physical
connection the pool opens goes through the factory, which generates exactly
one fresh token and passes exactly that token as the `password` of the
`psycopg2.connect` call of the same open (the `i`-th connection uses the
`i`-th generated token); and when the generated tokens are pairwise
distinct, no two connections are opened with the same password. -/
theorem pool_fresh_token_per_connection (tokens : Nat → String)
    (ep : String) (n : Nat) :
    (conn_params ep).password = none ∧
    createConnections tokens (conn_params ep) n 0 =
      (poolTrace tokens (conn_params ep) 0 n,
       poolConns tokens (conn_params ep) 0 n) ∧
    (∀ i, i < n →
      (createConnections tokens (conn_params ep) n 0).2.get? i =
        some ⟨{ conn_params ep with password := some (tokens i) }⟩) ∧
    ((∀ i j, i < n → j < n → i ≠ j → tokens i ≠ tokens j) →
      ∀ i j, i < n → j < n → i ≠ j →
        (createConnections tokens (conn_params ep) n 0).2.get? i ≠
          (createConnections tokens (conn_params ep) n 0).2.get? j) := by
  refine ⟨rfl, createConnections_spec tokens (conn_params ep) n 0, ?_, ?_⟩
  · intro i hi
    rw [createConnections_spec]
    have h := poolConns_get? tokens (conn_params ep) n 0 i hi
    rwa [Nat.zero_add] at h
  · intro hinj i j hi hj hne
    rw [createConnections_spec]
    have h1 := poolConns_get? tokens (conn_params ep) n 0 i hi
    have h2 := poolConns_get? tokens (conn_params ep) n 0 j hj
    rw [Nat.zero_add] at h1 h2
    dsimp only
    rw [h1, h2]
    intro hcontra
    apply hinj i j hi hj hne
    have hfields := congrArg (fun c : Option PGConnection =>
      c.map (fun x => x.params.password)) hcontra
    simpa using hfields

/-- Witness for C3 with two connections and the token oracle
`0 ↦ "a", _ ↦ "b"`. -/
theorem pool_fresh_token_witness :
    ((0 : Nat) < 2 ∧ (1 : Nat) < 2 ∧ (0 : Nat) ≠ 1 ∧
     (∀ i j : Nat, i < 2 → j < 2 → i ≠ j →
       (fun k => if k = 0 then "a" else "b") i ≠
         (fun k => if k = 0 then "a" else "b") j)) ∧
    ((conn_params "ep").password = none ∧
     (createConnections (fun k => if k = 0 then "a" else "b")
         (conn_params "ep") 2 0).2.get? 0 =
       some ⟨{ conn_params "ep" with password := some "a" }⟩ ∧
     (createConnections (fun k => if k = 0 then "a" else "b")
         (conn_params "ep") 2 0).2.get? 0 ≠
       (createConnections (fun k => if k = 0 then "a" else "b")
         (conn_params "ep") 2 0).2.get? 1) := by
  have main := pool_fresh_token_per_connection
    (fun k => if k = 0 then "a" else "b") "ep" 2
  have hinj : ∀ i j : Nat, i < 2 → j < 2 → i ≠ j →
      (fun k => if k = 0 then "a" else "b") i ≠
        (fun k => if k = 0 then "a" else "b") j := by
    intro i j hi hj hne
    interval_cases i <;> interval_cases j <;> simp_all
  refine ⟨⟨by decide, by decide, by decide, hinj⟩, main.1, ?_,
    main.2.2.2 hinj 0 1 (by decide) (by decide) (by decide)⟩
  have h := main.2.2.1 0 (by decide)
  simpa using h

/-! ## C10: `DSQLConnectionPool.return_connection` never propagates -/

/-- A psycopg2 connection as `return_connection` sees it: whether it is
closed, and whether its `rollback()` would raise. -/
structure PyConnHandle where
  closed : Bool
  rollbackRaises : Bool
  deriving DecidableEq

/-- The pool as `return_connection` sees it (`self.pool`, possibly `None`):
whether `putconn` would raise. -/
structure PoolHandle where
  putconnRaises : Bool
  deriving DecidableEq

/-- What a `return_connection` call did. -/
structure ReturnInfo where
  warned : Bool
  returnedToPool : Bool
  deriving DecidableEq

/-- The `try` body of `return_connection` (lines 203-209): if `conn` and
`self.pool` are both present, roll back unless the connection is closed
(rollback may raise), then `putconn` (may raise); otherwise do nothing. -/
def return_connection_try (pool? : Option PoolHandle)
    (conn? : Option PyConnHandle) : Except Unit ReturnInfo :=
  match conn?, pool? with
  | some conn, some pl =>
    if !conn.closed && conn.rollbackRaises then .error ()
    else if pl.putconnRaises then .error ()
    else .ok { warned := false, returnedToPool := true }
  | _, _ => .ok { warned := false, returnedToPool := false }

/-- Model of `return_connection` (lines 196-211): the `except` clause turns any
exception from the body into a `logger.warning` and returns normally. -/
def return_connection (pool? : Option PoolHandle)
    (conn? : Option PyConnHandle) : Except Unit ReturnInfo :=
  match return_connection_try pool? conn? with
  | .ok i => .ok i
  | .error _ => .ok { warned := true, returnedToPool := false }

/-- C10: `return_connection` returns normally for every combination of
connection (open, closed, rollback-raising, or `None`) and pool state
(absent or `putconn`-raising); when the connection is `None` or the pool is
absent the call is a no-op (nothing returned, nothing logged). -/
theorem return_connection_never_raises (pool? : Option PoolHandle)
    (conn? : Option PyConnHandle) :
    (∃ i, return_connection pool? conn? = .ok i) ∧
    ((conn? = none ∨ pool? = none) →
      return_connection pool? conn? = .ok ⟨false, false⟩) := by
  constructor
  · unfold return_connection
    rcases h : return_connection_try pool? conn? with u | i
    · exact ⟨_, rfl⟩
    · exact ⟨_, rfl⟩
  · intro h
    unfold return_connection return_connection_try
    rcases h with rfl | rfl
    · rcases pool? with _ | pl <;> rfl
    · rcases conn? with _ | c
      · rfl
      · rfl

/-- Witness for C10: returning a `None` connection (to a pool whose
`putconn` would even raise) is a no-op that raises nothing. -/
theorem return_connection_witness :
    ((none : Option PyConnHandle) = none ∨
      (some ⟨true⟩ : Option PoolHandle) = none) ∧
    return_connection (some ⟨true⟩) none = .ok ⟨false, false⟩ :=
  ⟨Or.inl rfl,
    (return_connection_never_raises (some ⟨true⟩) none).2 (Or.inl rfl)⟩

/-! ## C5: configuration resolution and exit codes of the `__main__` block
(lines 712-783 of `cloudshell_dsql_elasticache.py`) -/

/-- Where the region/endpoint configuration came from. -/
inductive ConfigSource where
  | cliArgs
  | envVars
  | missing
  deriving DecidableEq

/-- Observable outcome of one script run: the process exit code, the
resolved `(region, dsql_endpoint, valkey_endpoint)` triple, its source, and
which interactions happened. -/
structure ScriptOutcome where
  exitCode : Nat
  config : Option (String × String × String)
  configSource : ConfigSource
  promptedQueryType : Bool
  promptedProceed : Bool
  ranSetup : Bool
  ranMain : Bool
  deriving DecidableEq

/-- Model of `prompt_query_type` (lines 566-597): reads input lines until one strips
to `'1'` or `'2'`; `none` when the input is exhausted (`input()` raises
`EOFError`, which nothing catches). -/
def promptQueryType : List String → Option (String × List String)
  | [] => none
  | x :: rest =>
    if x.trim == "1" then some ("simple", rest)
    else if x.trim == "2" then some ("complex", rest)
    else promptQueryType rest

/-- The process exit status of `main(...)` followed by falling off the end
of the script: 0 on a normal return, otherwise the `sys.exit` status. -/
def runMainExit (menv : MainEnv) (cfgTtl : Nat) (cacheInit : CacheState)
    (qt : String) : Nat :=
  match (mainFn menv cfgTtl cacheInit qt).2 with
  | .metrics _ _ _ _ _ _ => 0
  | .exit c => c

/-- Lines 762-783: query-type prompt, optional `users1` setup or
complex-mode confirmation, then the performance test. -/
def scriptInteractive (cfg : String × String × String) (src : ConfigSource)
    (inputs : List String) (setupSuccess : Bool) (menv : MainEnv)
    (cfgTtl : Nat) (cacheInit : CacheState) : ScriptOutcome :=
  match promptQueryType inputs with
  | none =>
    -- input() raised EOFError; the uncaught exception ends the process
    -- with status 1
    { exitCode := 1, config := some cfg, configSource := src,
      promptedQueryType := true, promptedProceed := false,
      ranSetup := false, ranMain := false }
  | some (qt, rest) =>
    if qt == "simple" then
      if setupSuccess then
        { exitCode := runMainExit menv cfgTtl cacheInit "simple",
          config := some cfg, configSource := src,
          promptedQueryType := true, promptedProceed := false,
          ranSetup := true, ranMain := true }
      else
        -- line 770: sys.exit(1)
        { exitCode := 1, config := some cfg, configSource := src,
          promptedQueryType := true, promptedProceed := false,
          ranSetup := true, ranMain := false }
    else
      match rest with
      | [] =>
        -- EOFError at the proceed prompt
        { exitCode := 1, config := some cfg, configSource := src,
          promptedQueryType := true, promptedProceed := true,
          ranSetup := false, ranMain := false }
      | ans :: _ =>
        if ans.trim.toLower == "y" then
          { exitCode := runMainExit menv cfgTtl cacheInit "complex",
            config := some cfg, configSource := src,
            promptedQueryType := true, promptedProceed := true,
            ranSetup := false, ranMain := true }
        else
          -- line 777: sys.exit(0)
          { exitCode := 0, config := some cfg, configSource := src,
            promptedQueryType := true, promptedProceed := true,
            ranSetup := false, ranMain := false }

/-- The `__main__` block (lines 712-783).  `argv` includes the script name,
so `len(sys.argv) >= 3` means at least two user-supplied arguments; with
three or more user arguments the region is `argv[1]`, otherwise the legacy
two-argument form takes the region from `AWS_REGION` (default
`us-east-1`); with fewer than two arguments the three environment variables
are required, and when any is missing the script prints an error directing
to `quick_start.sh` and exits with status 1 — it never prompts for
endpoints. -/
def scriptMain (argv : List String) (osEnv : String → Option String)
    (inputs : List String) (setupSuccess : Bool) (menv : MainEnv)
    (cfgTtl : Nat) (cacheInit : CacheState) : ScriptOutcome :=
  if 3 ≤ argv.length then
    let cfg :=
      if 4 ≤ argv.length then
        (argv.getD 1 "", argv.getD 2 "", argv.getD 3 "")
      else
        ((osEnv "AWS_REGION").getD "us-east-1", argv.getD 1 "", argv.getD 2 "")
    let qt? : Option String :=
      if 4 ≤ argv.length then
        (if 5 ≤ argv.length then some (argv.getD 4 "") else none)
      else none
    match qt? with
    | some qt =>
      -- automated mode: no prompts at all
      { exitCode := runMainExit menv cfgTtl cacheInit qt,
        config := some cfg, configSource := .cliArgs,
        promptedQueryType := false, promptedProceed := false,
        ranSetup := false, ranMain := true }
    | none => scriptInteractive cfg .cliArgs inputs setupSuccess menv cfgTtl cacheInit
  else
    match osEnv "AWS_REGION", osEnv "DSQL_ENDPOINT", osEnv "VALKEY_ENDPOINT" with
    | some r, some c, some v =>
      scriptInteractive (r, c, v) .envVars inputs setupSuccess menv cfgTtl cacheInit
    | _, _, _ =>
      -- lines 746-753: error message and sys.exit(1); no prompt
      { exitCode := 1, config := none, configSource := .missing,
        promptedQueryType := false, promptedProceed := false,
        ranSetup := false, ranMain := false }

theorem runMainExit_zero_or_one (menv : MainEnv) (cfgTtl : Nat)
    (cacheInit : CacheState) (qt : String) :
    runMainExit menv cfgTtl cacheInit qt = 0 ∨
    runMainExit menv cfgTtl cacheInit qt = 1 := by
  unfold runMainExit
  rcases mainFn_result_cases menv cfgTtl cacheInit qt with
    ⟨a, b, c, d, e, f, h⟩ | h <;> rw [h]
  · left; rfl
  · right; rfl

theorem scriptInteractive_fields (cfg : String × String × String)
    (src : ConfigSource) (inputs : List String) (setupSuccess : Bool)
    (menv : MainEnv) (cfgTtl : Nat) (cacheInit : CacheState) :
    (scriptInteractive cfg src inputs setupSuccess menv cfgTtl cacheInit).configSource = src ∧
    (scriptInteractive cfg src inputs setupSuccess menv cfgTtl cacheInit).config = some cfg := by
  constructor <;> (unfold scriptInteractive; repeat' split) <;> rfl

theorem scriptInteractive_exit (cfg : String × String × String)
    (src : ConfigSource) (inputs : List String) (setupSuccess : Bool)
    (menv : MainEnv) (cfgTtl : Nat) (cacheInit : CacheState) :
    (scriptInteractive cfg src inputs setupSuccess menv cfgTtl cacheInit).exitCode = 0 ∨
    (scriptInteractive cfg src inputs setupSuccess menv cfgTtl cacheInit).exitCode = 1 := by
  unfold scriptInteractive
  repeat' split
  all_goals first
    | (left; rfl)
    | (right; rfl)
    | (exact runMainExit_zero_or_one menv cfgTtl cacheInit _)

/-- C5 (amended): configuration is resolved from positional arguments when
at least two are given, otherwise from the environment variables
`AWS_REGION`, `DSQL_ENDPOINT` and `VALKEY_ENDPOINT`; when those are also
missing the script does NOT fall back to an interactive prompt — it prints
an error directing to `quick_start.sh` and exits with status 1 (the
interactive prompts concern only the query type and the complex-mode
confirmation); and the exit code of every run is 0 or 1. -/
theorem script_config_resolution (argv : List String)
    (osEnv : String → Option String) (inputs : List String)
    (setupSuccess : Bool) (menv : MainEnv) (cfgTtl : Nat)
    (cacheInit : CacheState) :
    (3 ≤ argv.length →
      (scriptMain argv osEnv inputs setupSuccess menv cfgTtl cacheInit).configSource = .cliArgs) ∧
    (argv.length < 3 → ∀ r c v, osEnv "AWS_REGION" = some r →
      osEnv "DSQL_ENDPOINT" = some c → osEnv "VALKEY_ENDPOINT" = some v →
      (scriptMain argv osEnv inputs setupSuccess menv cfgTtl cacheInit).configSource = .envVars ∧
      (scriptMain argv osEnv inputs setupSuccess menv cfgTtl cacheInit).config = some (r, c, v)) ∧
    (argv.length < 3 →
      (osEnv "AWS_REGION" = none ∨ osEnv "DSQL_ENDPOINT" = none ∨
        osEnv "VALKEY_ENDPOINT" = none) →
      scriptMain argv osEnv inputs setupSuccess menv cfgTtl cacheInit =
        ⟨1, none, .missing, false, false, false, false⟩) ∧
    ((scriptMain argv osEnv inputs setupSuccess menv cfgTtl cacheInit).exitCode = 0 ∨
     (scriptMain argv osEnv inputs setupSuccess menv cfgTtl cacheInit).exitCode = 1) := by
  refine ⟨?_, ?_, ?_, ?_⟩
  · intro hlen
    unfold scriptMain
    rw [if_pos hlen]
    dsimp only
    split
    · rfl
    · exact (scriptInteractive_fields _ _ _ _ _ _ _).1
  · intro hlen r c v hr hc hv
    unfold scriptMain
    rw [if_neg (by omega), hr, hc, hv]
    exact scriptInteractive_fields _ _ _ _ _ _ _
  · intro hlen hmiss
    unfold scriptMain
    rw [if_neg (by omega)]
    rcases ha : osEnv "AWS_REGION" with _ | r
    · rfl
    · rcases hb : osEnv "DSQL_ENDPOINT" with _ | c
      · rfl
      · rcases hvv : osEnv "VALKEY_ENDPOINT" with _ | v
        · rfl
        · exfalso
          rcases hmiss with h | h | h <;> simp_all
  · unfold scriptMain
    by_cases hlen : 3 ≤ argv.length
    · rw [if_pos hlen]
      dsimp only
      split
      · exact runMainExit_zero_or_one menv cfgTtl cacheInit _
      · exact scriptInteractive_exit _ _ _ _ _ _ _
    · rw [if_neg hlen]
      rcases osEnv "AWS_REGION" with _ | r
      · right; rfl
      · rcases osEnv "DSQL_ENDPOINT" with _ | c
        · right; rfl
        · rcases osEnv "VALKEY_ENDPOINT" with _ | v
          · right; rfl
          · exact scriptInteractive_exit _ _ _ _ _ _ _

/-- Counterexample to C5 as stated: with no command-line arguments and none
of the three environment variables set, the script does not prompt for the
region or endpoints (no prompt of any kind happens, and no input line is
consumed) — it exits immediately with status 1. -/
theorem script_missing_config_no_prompt :
    scriptMain ["cloudshell_dsql_elasticache.py"] (fun _ => none) ["1"] true
      missEnv 30 [] =
      ⟨1, none, .missing, false, false, false, false⟩ := rfl

/-- Witness for the amended C5 at the same concrete input. -/
theorem script_config_resolution_witness :
    ((1 : Nat) < 3 ∧
      ((fun _ => (none : Option String)) "AWS_REGION" = none ∨
        (fun _ => (none : Option String)) "DSQL_ENDPOINT" = none ∨
        (fun _ => (none : Option String)) "VALKEY_ENDPOINT" = none)) ∧
    (scriptMain ["cloudshell_dsql_elasticache.py"] (fun _ => none) ["1"] true
        missEnv 30 [] =
      ⟨1, none, .missing, false, false, false, false⟩ ∧
    ((scriptMain ["cloudshell_dsql_elasticache.py"] (fun _ => none) ["1"] true
        missEnv 30 []).exitCode = 0 ∨
     (scriptMain ["cloudshell_dsql_elasticache.py"] (fun _ => none) ["1"] true
        missEnv 30 []).exitCode = 1)) :=
  ⟨⟨by decide, Or.inl rfl⟩,
    (script_config_resolution ["cloudshell_dsql_elasticache.py"]
        (fun _ => none) ["1"] true missEnv 30 []).2.2.1 (by decide) (Or.inl rfl),
    (script_config_resolution ["cloudshell_dsql_elasticache.py"]
        (fun _ => none) ["1"] true missEnv 30 []).2.2.2⟩
